import Mathlib

/-!
Shallow embedding of the `xtest-data` crate (files `src/lib.rs` and `src/git.rs`)
for verifying its natural-language specification.

Conventions of the embedding:
* Rust `PathBuf`/`Path` values are modelled by `RsPath`: an absoluteness flag and a
  list of components.  `Path::join` is modelled faithfully, including the rule that
  joining an absolute path replaces the base.
* Environment access is modelled by explicit `Env` records.  `std::env::var` (which
  distinguishes unset / non-unicode / unicode) is reflected by `Option EnvVal`.
* A process abort (`inconclusive`, a failed `assert!`, an `expect` panic) is modelled
  by `Except.error lines` carrying the diagnostic lines that the program writes.
* Child processes are modelled by oracles: the caller supplies the spawn/exit/stdout
  outcome of each invocation, and the embedding records exactly what was streamed to
  the child and how the result was handled.
* `Setup::build` is embedded as a function producing the ordered list of external
  operations it performs (`BEv` events) together with the final path map, so that
  the temporal claims about consent, network and store access can be stated.
-/

set_option linter.unusedVariables false

namespace XtestData

/-- Diagnostic lines written by `inconclusive` in `src/lib.rs` (eprintln of a fixed
header followed by the cause) before the process panics. -/
def inconclusive (msg : String) : List String :=
  ["xtest-data failed to setup.", "Information: " ++ msg]

/-- Model of a Rust filesystem path: whether it is absolute, and its components. -/
structure RsPath where
  absolute : Bool
  components : List String
deriving DecidableEq

/-- A relative path made of the given components. -/
def RsPath.rel (cs : List String) : RsPath := ⟨false, cs⟩

/-- Rust `Path::join`: pushing an absolute path replaces the whole base path. -/
def RsPath.join (base p : RsPath) : RsPath :=
  if p.absolute then p else ⟨base.absolute, base.components ++ p.components⟩

/-- Rendering of a path as by `Path::display`. -/
def RsPath.display (p : RsPath) : String :=
  (if p.absolute then "/" else "") ++ String.intercalate "/" p.components

/-- Value of an environment variable as seen by `std::env::var`. -/
inductive EnvVal
  | str (s : String)
  | nonUnicode
deriving DecidableEq

/-- The runtime environment variables consumed by the crate. -/
structure Env where
  /-- `CARGO_XTEST_DATA_FETCH` (read with `var`, hence the unicode distinction). -/
  fetch : Option EnvVal
  /-- `CARGO_XTEST_DATA_REPOSITORY_ORIGIN` (read with `var_os`). -/
  repositoryOrigin : Option String
  /-- `CARGO_XTEST_DATA_TMPDIR` (read with `var_os`). -/
  xtestTmpdir : Option RsPath
  /-- `TMPDIR` (read with `var_os`). -/
  tmpdir : Option RsPath
  /-- `CARGO_XTEST_DATA_PACK_OBJECTS` (read with `var_os`). -/
  packObjects : Option String
deriving DecidableEq

/-- `Origin` of `src/git.rs`: a remote locator that has not passed the consent gate. -/
structure Origin where
  url : String
deriving DecidableEq

/-- `ClearedOrigin` of `src/git.rs`: an origin that is okay to fetch from. -/
structure ClearedOrigin where
  url : String
deriving DecidableEq

/-- `CommitId` of `src/git.rs`: opaque commit identity string. -/
structure CommitId where
  val : String
deriving DecidableEq

/-- Model of Rust `str::trim`: remove whitespace from both ends. Implemented
structurally over the character list so that concrete instances evaluate. -/
def rustTrim (s : String) : String :=
  String.mk (((s.data.dropWhile Char.isWhitespace).reverse.dropWhile Char.isWhitespace).reverse)

/-- `impl From<&str> for CommitId` (src/git.rs:150-160): trim the input and
assert that at least 40 bytes remain, else panic with the assert message. -/
def CommitId.fromStr (st : String) : Except (List String) CommitId :=
  let t := rustTrim st
  if 40 ≤ t.utf8ByteSize then Except.ok ⟨t⟩
  else Except.error ["Unlikely to be a safe Git Object ID in vcs pin file: " ++ t]

/-- `PathSpec` of `src/git.rs`: currently only the literal-path variant. -/
structure PathSpec where
  path : RsPath
deriving DecidableEq

/-- `PathSpec::as_encompassing_path` (src/git.rs:556-564): the `Path` variant
always has an encompassing path. -/
def PathSpec.as_encompassing_path (p : PathSpec) : Option RsPath := some p.path

/-- Rendering of the encompassing path via `Path::display` (used for the
sparse-checkout line protocol and the simple/complex classification). -/
def PathSpec.displayPath (p : PathSpec) : String := p.path.display

/-- `Display for PathSpec` (src/git.rs:572-578): `:(top,literal){path}`. -/
def PathSpec.render (p : PathSpec) : String := ":(top,literal)" ++ p.path.display

/-- The NUL character used as separator when streaming pathspecs to children. -/
def nulStr : String := String.mk [Char.ofNat 0]

/-- The `var` computation at src/git.rs:61-67: absent ↦ none, non-unicode ↦ "no",
a unicode value is passed through. -/
def consentValue (env : Env) : Option String :=
  match env.fetch with
  | none => none
  | some (EnvVal.str s) => some s
  | some EnvVal.nonUnicode => some "no"

/-- The accepting arm of the match at src/git.rs:70: exactly `yes`, `1`, `true`. -/
def consentAccepts (v : Option String) : Bool :=
  v == some "yes" || v == some "1" || v == some "true"

/-- The eprintln plan written when consent is denied (src/git.rs:72-83), followed
by the `inconclusive` diagnostic. -/
def consentPlan (gitpath datapath : RsPath) (origin : Origin) (commit : CommitId)
    (resources : List RsPath) (pathspecs : List PathSpec) : List String :=
  ["These tests require additional data from a remote source.",
   "Here is what we planned to do.",
   "Set up bare Git dir in: " ++ gitpath.display,
   "Git Origin: " ++ origin.url,
   "Fetch Commit: " ++ commit.val,
   "Checkout files into: " ++ datapath.display]
  ++ (resources.zip pathspecs).map
      (fun rp => "  into " ++ rp.1.display ++ ": " ++ rp.2.render)
  ++ ["Explicit consent can be given by setting CARGO_XTEST_DATA_FETCH=1"]
  ++ inconclusive "refusing to continue without explicit agreement to network (see error log)."

/-- `Git::consent_to_use` (src/git.rs:50-89): read `CARGO_XTEST_DATA_FETCH`; on an
accepting value produce a `ClearedOrigin` with the same URL; otherwise write the
plan and abort. -/
def Git.consent_to_use (env : Env) (gitpath datapath : RsPath) (origin : Origin)
    (commit : CommitId) (resources : List RsPath) (pathspecs : List PathSpec) :
    Except (List String) ClearedOrigin :=
  if consentAccepts (consentValue env) then Except.ok ⟨origin.url⟩
  else Except.error (consentPlan gitpath datapath origin commit resources pathspecs)

/-- Minimal JSON model covering what `_setup` consumes from `tinyjson`: strings,
objects, and a catch-all for other values. -/
inductive Json
  | jstr (s : String)
  | jobj (fields : List (String × Json))
  | jother

/-- The `GetKey` helper of `_setup` (src/lib.rs:231-238): object key lookup. -/
def Json.get_key : Json → String → Option Json
  | Json.jobj fields, k => (fields.find? (fun f => f.1 == k)).map (fun f => f.2)
  | _, _ => none

/-- `JsonValue::get::<String>`: succeeds only on a JSON string. -/
def Json.getString : Json → Option String
  | Json.jstr s => some s
  | _ => none

/-- State of `<manifest>/.cargo_vcs_info.json` at setup time. -/
inductive VcsInfoState
  | absent
  | unreadable (msg : String)
  | unparsable (msg : String)
  | parsed (j : Json)

/-- `EnvOptions` of `src/lib.rs`: compile-time data threaded by the `setup!` macro. -/
structure EnvOptions where
  pkg_repository : String
  manifest_dir : RsPath
  target_tmpdir : Option RsPath

/-- Message displayed when `which::which("git")` fails. Modelled constant (the
exact wording comes from the external `which` crate). -/
def gitNotFound : String := "cannot find binary path"

/-- World state observed by `_setup`: the runtime environment, the pin file, and
whether a `git` binary can be located. -/
structure SetupWorld where
  env : Env
  vcsInfo : VcsInfoState
  gitWhich : Bool

/-- `Source` of `src/lib.rs`: packaged (pin present) versus local mode. -/
inductive Source
  | vcsFromManifest (commit_id : CommitId) (datadir : RsPath)
  | localSource
deriving DecidableEq

/-- `Resources` of `src/lib.rs`: managed relative files plus borrowed path
variables (their current values). -/
structure Resources where
  relative_files : List RsPath
  unmanaged : List RsPath
deriving DecidableEq

/-- `Resources::as_paths` (src/lib.rs:452-456): managed values then unmanaged. -/
def Resources.as_paths (r : Resources) : List RsPath :=
  r.relative_files ++ r.unmanaged

/-- `Resources::path_specs` (src/lib.rs:458-462): the same sequence as pathspecs. -/
def Resources.path_specs (r : Resources) : List PathSpec :=
  (r.relative_files ++ r.unmanaged).map (fun p => ⟨p⟩)

/-- `Setup` of `src/lib.rs`: the builder produced by `_setup`. -/
structure Setup where
  repository : String
  manifest : RsPath
  source : Source
  resources : Resources
  pack_objects : Option String
deriving DecidableEq

/-- `_setup` (src/lib.rs:207-299): validate the repository URL, apply the origin
override, detect the mode from the pin file, extract and validate the commit pin,
locate git and the data directory, and snapshot `CARGO_XTEST_DATA_PACK_OBJECTS`. -/
def _setup (opts : EnvOptions) (w : SetupWorld) : Except (List String) Setup :=
  if opts.pkg_repository == "" then
    Except.error (inconclusive "The crate must have a valid URL in `package.repository`")
  else
    let repository := (w.env.repositoryOrigin).getD opts.pkg_repository
    let next : Except (List String) (Source × Option String) :=
      match w.vcsInfo with
      | VcsInfoState.absent =>
        if w.gitWhich then Except.ok (Source.localSource, w.env.packObjects)
        else Except.error (inconclusive gitNotFound)
      | VcsInfoState.unreadable msg => Except.error (inconclusive msg)
      | VcsInfoState.unparsable msg => Except.error (inconclusive msg)
      | VcsInfoState.parsed j =>
        match j.get_key "git" with
        | none => Except.error (inconclusive "VCS does not contain a git section.")
        | some g =>
          match g.get_key "sha1" with
          | none => Except.error (inconclusive "VCS commit ID not recognized.")
          | some s1 =>
            match s1.getString with
            | none => Except.error (inconclusive "VCS commit ID is not a string")
            | some str =>
              match CommitId.fromStr str with
              | Except.error e => Except.error e
              | Except.ok commit =>
                if w.gitWhich then
                  match (opts.target_tmpdir).orElse
                      (fun _ => (w.env.xtestTmpdir).orElse (fun _ => w.env.tmpdir)) with
                  | none => Except.error
                      ["This setup must only be called in an integration test or benchmark, or with an explicit TMPDIR"]
                  | some datadir =>
                    Except.ok (Source.vcsFromManifest commit datadir, w.env.packObjects)
                else Except.error (inconclusive gitNotFound)
    match next with
    | Except.error e => Except.error e
    | Except.ok sp =>
      if repository == "" then
        Except.error (inconclusive "The repository must have a valid URL")
      else
        Except.ok { repository := repository, manifest := opts.manifest_dir,
                    source := sp.1, resources := ⟨[], []⟩, pack_objects := sp.2 }

/-- `Setup::add` (src/lib.rs:346-356): append a managed path, return the new
builder and the key (the previous length). -/
def Setup.add (s : Setup) (p : RsPath) : Setup × Nat :=
  ({ s with resources :=
      { s.resources with relative_files := s.resources.relative_files ++ [p] } },
   s.resources.relative_files.length)

/-- `Setup::rewrite` (src/lib.rs:325-328): register borrowed path variables. -/
def Setup.rewrite (s : Setup) (paths : List RsPath) : Setup :=
  { s with resources := { s.resources with unmanaged := s.resources.unmanaged ++ paths } }

/-- `set_root` (src/lib.rs:486-488): `*dir = path.join(&*dir)`. -/
def set_root (path : RsPath) (dir : RsPath) : RsPath := path.join dir

/-- `FsData` of `src/lib.rs`: the frozen map from keys to rewritten paths. -/
structure FsData where
  map : List RsPath
deriving DecidableEq

/-- `FsData::path` (src/lib.rs:467-469): indexed lookup (`none` models the
`unwrap` panic on an invalid key). -/
def FsData.path (d : FsData) (key : Nat) : Option RsPath := d.map.get? key

/-- Result of a child-process `status()` call: spawn/wait error, or exit with the
given success flag. The exit code itself is otherwise unused by the crate. -/
inductive SpawnResult
  | ioError (msg : String)
  | exited (success : Bool)
deriving DecidableEq

/-- Result of a child-process `output()`/`wait_with_output()` call. -/
inductive OutputResult
  | ioError (msg : String)
  | finished (success : Bool) (stderr : String)
deriving DecidableEq

/-- `CrateDir` of `src/git.rs`: a working copy handle. -/
structure CrateDir where
  path : RsPath
deriving DecidableEq

/-- `CrateDir::new` (src/git.rs:163-173): run `git status --short` in the
directory; abort only when `status()` itself errors. The exit status of the
child is not inspected. -/
def CrateDir.new (statusRes : SpawnResult) (path : RsPath) :
    Except (List String) CrateDir :=
  match statusRes with
  | SpawnResult.ioError msg => Except.error (inconclusive msg)
  | SpawnResult.exited _ => Except.ok ⟨path⟩

/-- `ShallowBareRepository` of `src/git.rs`: a bare store handle. -/
structure ShallowBareRepository where
  path : RsPath
deriving DecidableEq

/-- `Git::shallow_clone` (src/git.rs:93-122): clone (or probe with
`symbolic-ref` when the path exists), aborting only when `status()` itself
errors; the child's exit status is not inspected and no stderr is printed. -/
def Git.shallow_clone (pathExists : Bool) (statusRes : SpawnResult) (path : RsPath)
    (origin : ClearedOrigin) : Except (List String) ShallowBareRepository :=
  match statusRes with
  | SpawnResult.ioError msg => Except.error (inconclusive msg)
  | SpawnResult.exited _ => Except.ok ⟨path⟩

/-- `ShallowBareRepository::fetch` (src/git.rs:366-380): run the fetch, abort on
an I/O error, and on a non-zero exit write the captured stderr followed by the
operation diagnostic. -/
def ShallowBareRepository.fetch (res : OutputResult) : Except (List String) Unit :=
  match res with
  | OutputResult.ioError msg => Except.error (inconclusive msg)
  | OutputResult.finished true _ => Except.ok ()
  | OutputResult.finished false stderr =>
      Except.error (stderr :: inconclusive "Git operation was not successful")

/-- The abort pattern repeated by every output-capturing git invocation in
`src/git.rs` (fetch 373-379, unpack 407-413, worktree add 436-442, forced
checkout 484-490, fallback-slow 519-525, hash-object 304-311, rev-list
270-276, pack-objects 246-253): an I/O error of the call itself aborts with
its message; a non-zero exit writes the captured stderr followed by the
operation diagnostic; success continues. -/
def gitOutputGate (res : OutputResult) : Except (List String) Unit :=
  match res with
  | OutputResult.ioError msg => Except.error (inconclusive msg)
  | OutputResult.finished true _ => Except.ok ()
  | OutputResult.finished false stderr =>
      Except.error (stderr :: inconclusive "Git operation was not successful")

/-- `ShallowBareRepository::unpack` (git.rs:382-415) at the process level: one
`unpack-objects` child per pack file, in order, each going through the output
gate; the first failing child aborts the iteration (an I/O error while
opening, spawning, streaming or waiting is `ioError`). -/
def ShallowBareRepository.unpack : List OutputResult → Except (List String) Unit
  | [] => Except.ok ()
  | res :: rest =>
    match gitOutputGate res with
    | Except.error e => Except.error e
    | Except.ok _ => ShallowBareRepository.unpack rest

/-- `ShallowBareRepository::checkout` (git.rs:420-493) at the process level:
`worktree add` is output-gated; a failure of the sparse-checkout attempt falls
back to the slow branch instead of aborting; on sparse success the forced
checkout is output-gated; in both branches the fallback-slow child is
output-gated. -/
def ShallowBareRepository.checkoutGate (worktreeAddRes : OutputResult)
    (sparseOk : Bool) (forceRes slowRes : OutputResult) :
    Except (List String) Unit :=
  match gitOutputGate worktreeAddRes with
  | Except.error e => Except.error e
  | Except.ok _ =>
    if sparseOk then
      match gitOutputGate forceRes with
      | Except.error e => Except.error e
      | Except.ok _ => gitOutputGate slowRes
    else gitOutputGate slowRes

/-- `CrateDir::pack_objects` (git.rs:223-254) at the process level: the
`hash-object` child (git.rs:304-311), the sparse and blob:none `rev-list`
children (git.rs:270-276) and the final `pack-objects --incremental` child
(git.rs:246-253) are waited on in that order, each through the output gate. -/
def CrateDir.packObjectsGate (hashRes revSparseRes revTreeRes packRes : OutputResult) :
    Except (List String) Unit :=
  match gitOutputGate hashRes with
  | Except.error e => Except.error e
  | Except.ok _ =>
    match gitOutputGate revSparseRes with
    | Except.error e => Except.error e
    | Except.ok _ =>
      match gitOutputGate revTreeRes with
      | Except.error e => Except.error e
      | Except.ok _ => gitOutputGate packRes

/-- Events relevant to the advisory file lock, for the per-operation lock traces. -/
inductive LockEv
  | acquire
  | release
  | child (cmd : String)
  | fsWrite (file : String)
deriving DecidableEq

/-- Lock trace of `Git::shallow_clone` (src/git.rs:93-122): the `FileWaitLock`
guard is taken before the child runs and dropped when the function exits
(normally or by unwinding through `inconclusive`). -/
def Git.shallowCloneLock (pathExists : Bool) : List LockEv :=
  [LockEv.acquire, LockEv.child (if pathExists then "symbolic-ref" else "clone"),
   LockEv.release]

/-- Lock trace of `Git::bare` (src/git.rs:126-147): guard, child, write of the
`shallow` marker, release. -/
def Git.bareLock (pathExists : Bool) : List LockEv :=
  [LockEv.acquire, LockEv.child (if pathExists then "symbolic-ref" else "init"),
   LockEv.fsWrite "shallow", LockEv.release]

/-- Lock trace of `ShallowBareRepository::fetch` (src/git.rs:366-380). -/
def ShallowBareRepository.fetchLock : List LockEv :=
  [LockEv.acquire, LockEv.child "fetch", LockEv.release]

/-- Lock trace of `ShallowBareRepository::unpack` (src/git.rs:382-415): guard,
one `unpack-objects` child per directory entry whose name ends in `pack`,
release. -/
def ShallowBareRepository.unpackLock (entries : List String) : List LockEv :=
  (LockEv.acquire ::
    (entries.filter (fun e => e.endsWith "pack")).map (fun _ => LockEv.child "unpack-objects"))
  ++ [LockEv.release]

/-- Lock trace of `ShallowBareRepository::checkout` (src/git.rs:420-493): the
function runs `worktree add`, the sparse-checkout attempt, and the checkouts
without ever constructing a `FileWaitLock`. -/
def ShallowBareRepository.checkoutLock (sparseOk : Bool) : List LockEv :=
  LockEv.child "worktree add" ::
    (if sparseOk then
      [LockEv.child "sparse-checkout set", LockEv.child "checkout --force",
       LockEv.child "checkout slow"]
     else [LockEv.child "sparse-checkout set", LockEv.child "checkout slow"])

/-- Outcome of dropping a `FileWaitLock` (src/git.rs:546-554). -/
inductive DropOutcome
  | released
  | processAbort
deriving DecidableEq

/-- `Drop for FileWaitLock`: release the lock; abort the whole process when the
release itself fails. -/
def FileWaitLock.dropGuard (unlockOk : Bool) : DropOutcome :=
  if unlockOk then DropOutcome.released else DropOutcome.processAbort

/-- A lock trace is properly guarded when it opens with the acquisition and ends
with the release. -/
def lockGuarded (t : List LockEv) : Bool :=
  t.head? == some LockEv.acquire && t.getLast? == some LockEv.release

/-- Model of `String::contains(char)`: membership in the character data. -/
def strContains (s : String) (c : Char) : Bool := s.data.contains c

/-- The simple/complex test of `PathSpecFilter` (src/git.rs:324-344): a pathspec
is simple when it has an encompassing path whose rendering contains neither a
newline nor a NUL. -/
def PathSpec.isSimple (p : PathSpec) : Bool :=
  match p.as_encompassing_path with
  | some sp => !(strContains sp.display '\n') && !(strContains sp.display (Char.ofNat 0))
  | none => false

/-- `PathSpecFilter` collection (src/git.rs:318-352): order-preserving partition
into (simple_filter, complex_paths). -/
def pathSpecFilter (paths : List PathSpec) : List PathSpec × List PathSpec :=
  paths.partition PathSpec.isSimple

/-- Oracle for the stdout of the git children used by `pack_objects`:
`hash-object -w --stdin` and `rev-list` keyed by its filter argument. The
oracle models successfully exiting children; a failing child aborts the run
without changing what had been streamed. -/
structure GitOracle where
  hashObjectOut : String → String
  revListOut : String → String

/-- The bytes written to `hash-object --stdin` (src/git.rs:298-301): each
pathspec rendered and NUL-terminated. -/
def CrateDir.hashInput (paths : List PathSpec) : String :=
  String.join (paths.map (fun p => p.render ++ nulStr))

/-- `CrateDir::hash_sparse_oid` (src/git.rs:289-315): stream the NUL-terminated
pathspec list, read back the object id, and construct a `CommitId` from it
(which trims and asserts the 40-byte minimum). -/
def CrateDir.hash_sparse_oid (o : GitOracle) (paths : List PathSpec) :
    Except (List String) CommitId :=
  CommitId.fromStr (o.hashObjectOut (CrateDir.hashInput paths))

/-- `CrateDir::sparse_rev_list` (src/git.rs:256-287): hash the sparse oid, then
concatenate the `sparse:oid`-filtered object list with the `blob:none`-filtered
tree skeleton. Returns the oid together with the concatenated stdout bytes. -/
def CrateDir.sparse_rev_list (o : GitOracle) (paths : List PathSpec) :
    Except (List String) (String × String) :=
  match CrateDir.hash_sparse_oid o paths with
  | Except.error e => Except.error e
  | Except.ok cid =>
    let objects := o.revListOut ("--filter=sparse:oid=" ++ cid.val)
    let treeish := o.revListOut "--filter=blob:none"
    Except.ok (cid.val, objects ++ treeish)

/-- Record of one `pack_objects` run: what was hashed, which rev-lists were
queried, what was streamed into `pack-objects --incremental`, and the output
path argument. -/
structure PackTrace where
  hashStdin : String
  sparseOid : String
  revListFilters : List String
  packStdin : String
  packOutputArg : RsPath
deriving DecidableEq

/-- `CrateDir::pack_objects` (src/git.rs:223-254): split the pathspecs with
`PathSpecFilter`, compute the sparse rev-list of the simple part, and stream it
into `pack-objects --incremental <pack_name>/xtest-data`. -/
def CrateDir.pack_objects (o : GitOracle) (paths : List PathSpec) (packName : RsPath) :
    Except (List String) PackTrace :=
  let parts := pathSpecFilter paths
  match CrateDir.sparse_rev_list o parts.1 with
  | Except.error e => Except.error e
  | Except.ok res =>
    Except.ok { hashStdin := CrateDir.hashInput parts.1,
                sparseOid := res.1,
                revListFilters := ["--filter=sparse:oid=" ++ res.1, "--filter=blob:none"],
                packStdin := res.2,
                packOutputArg := packName.join (RsPath.rel ["xtest-data"]) }

/-- `CrateDir::tracked` (src/git.rs:185-221): no-op on an empty pathspec set;
otherwise inspect the NUL-separated porcelain records and abort on the first
record flagged ignored (`!`) or untracked (`?`). `items` carries the outcome of
running the status child and decoding its stdout. -/
def CrateDir.tracked (items : Except String (List String)) (specs : List PathSpec) :
    Except (List String) Unit :=
  if specs.isEmpty then Except.ok ()
  else
    match items with
    | Except.error msg => Except.error (inconclusive msg)
    | Except.ok its =>
      match its.find? (fun it => it.startsWith "!" || it.startsWith "?") with
      | some it =>
        if it.startsWith "!" then
          Except.error (it :: inconclusive "Your test depends on ignored file(s)")
        else
          Except.error (it :: inconclusive "Your test depends on untracked file(s)")
      | none => Except.ok ()

/-- Trace of one `ShallowBareRepository::checkout` run (src/git.rs:420-526):
which lines were piped into `sparse-checkout set --stdin`, whether the forced
checkout ran, and which pathspecs were streamed NUL-delimited into the
fallback-slow `checkout --pathspec-from-file=-` branch. -/
structure CheckoutTrace where
  worktreeAddRan : Bool
  sparseStdin : Option (List String)
  forceCheckoutRan : Bool
  slowStdin : Option (List String)
  aborted : Bool
deriving DecidableEq

/-- `ShallowBareRepository::checkout` (src/git.rs:420-493): partition the
pathspecs; `worktree add --no-checkout`; attempt sparse-checkout over the simple
paths (one display line each); on sparse failure fall back to the slow branch
with the union simple ++ complex; on sparse success run `checkout --force` and
then the slow branch over the complex paths only. The booleans are the oracle
for the success of each child. -/
def ShallowBareRepository.checkout (worktreeAddOk sparseOk forceOk slowOk : Bool)
    (paths : List PathSpec) : CheckoutTrace :=
  let parts := pathSpecFilter paths
  if !worktreeAddOk then
    { worktreeAddRan := true, sparseStdin := none, forceCheckoutRan := false,
      slowStdin := none, aborted := true }
  else if !sparseOk then
    { worktreeAddRan := true,
      sparseStdin := some (parts.1.map PathSpec.displayPath),
      forceCheckoutRan := false,
      slowStdin := some ((parts.1 ++ parts.2).map PathSpec.render),
      aborted := !slowOk }
  else if !forceOk then
    { worktreeAddRan := true,
      sparseStdin := some (parts.1.map PathSpec.displayPath),
      forceCheckoutRan := true, slowStdin := none, aborted := true }
  else
    { worktreeAddRan := true,
      sparseStdin := some (parts.1.map PathSpec.displayPath),
      forceCheckoutRan := true,
      slowStdin := some (parts.2.map PathSpec.render),
      aborted := !slowOk }

/-- The hex table of `unique_dir` (src/lib.rs:502). -/
def TABLE : List Char := "0123456789abcdef".toList

/-- The two hex characters pushed per random byte (src/lib.rs:508-512): low
nibble first, then high nibble. Bytes are modelled as naturals; `% 16` and
`/ 16 % 16` agree with `byte & 0xf` and `(byte >> 4) & 0xf` on `u8`. -/
def hexByteChars (b : Nat) : List Char :=
  [TABLE.getD (b % 16) 'x', TABLE.getD (b / 16 % 16) 'x']

/-- The 2·n hex characters produced from the first n random bytes. -/
def hexChars (num : Nat → Nat) : Nat → List Char
  | 0 => []
  | n + 1 => hexChars num n ++ hexByteChars (num n)

/-- `generate_name` of `unique_dir` (src/lib.rs:500-515): the prefix immediately
followed by the 16 hex characters of the 8 random bytes — there is no separator
between prefix and suffix. -/
def generate_name (pref : String) (num : Nat → Nat) : String :=
  pref ++ String.mk (hexChars num 8)

/-- Directories currently existing on disk. -/
structure FsSt where
  dirs : List RsPath
deriving DecidableEq

/-- Outcome of `fs::create_dir`. -/
inductive CreateOutcome
  | created
  | errExists
  | errOther
deriving DecidableEq

/-- `fs::create_dir`: an existing directory yields `AlreadyExists`; otherwise the
`allow` oracle decides between successful creation (recorded in the state) and
any other I/O error. -/
def createDir (allow : RsPath → Bool) (fs : FsSt) (p : RsPath) : FsSt × CreateOutcome :=
  if p ∈ fs.dirs then (fs, CreateOutcome.errExists)
  else if allow p then (⟨p :: fs.dirs⟩, CreateOutcome.created)
  else (fs, CreateOutcome.errOther)

/-- The retry loop of `unique_dir` (src/lib.rs:517-524), with fuel making the
potentially unbounded loop total: `none` models the loop not having terminated
within the fuel.  `rng k` are the 8 random bytes drawn at attempt `k`.
`AlreadyExists` retries with a fresh name; any other error is returned; success
returns the freshly created path. -/
def unique_dir_go (base : RsPath) (pref : String) (rng : Nat → Nat → Nat)
    (allow : RsPath → Bool) : Nat → Nat → FsSt → FsSt × Option (Except Unit RsPath)
  | 0, _, fs => (fs, none)
  | fuel + 1, k, fs =>
    let path := base.join (RsPath.rel [generate_name pref (rng k)])
    match createDir allow fs path with
    | (fs', CreateOutcome.created) => (fs', some (Except.ok path))
    | (fs', CreateOutcome.errExists) => unique_dir_go base pref rng allow fuel (k + 1) fs'
    | (fs', CreateOutcome.errOther) => (fs', some (Except.error ()))

/-- `unique_dir` (src/lib.rs:491-525) started at the first attempt. -/
def unique_dir (base : RsPath) (pref : String) (rng : Nat → Nat → Nat)
    (allow : RsPath → Bool) (fuel : Nat) (fs : FsSt) :
    FsSt × Option (Except Unit RsPath) :=
  unique_dir_go base pref rng allow fuel 0 fs

/-- The externally observable operations performed by `Setup::build`, in order.
`clone` and `fetch` are the operations that may touch the network; `bareInit`,
`unpack` and `checkout` act on the object store; `consent` is the consent gate. -/
inductive BEv
  | consent
  | clone (url : String)
  | fetch (url : String) (commit : String)
  | bareInit (commit : String)
  | unpack
  | checkout (commit : String)
  | tracked
  | packWrite
deriving DecidableEq

/-- Whether an event is the consent gate. -/
def BEv.isConsent : BEv → Bool
  | BEv.consent => true
  | _ => false

/-- Whether an event may open a network connection (clone and fetch address the
remote origin). -/
def BEv.isNetwork : BEv → Bool
  | BEv.clone _ => true
  | BEv.fetch _ _ => true
  | _ => false

/-- Whether an event accesses the shared object store. -/
def BEv.isStoreOp : BEv → Bool
  | BEv.clone _ => true
  | BEv.fetch _ _ => true
  | BEv.bareInit _ => true
  | BEv.unpack => true
  | BEv.checkout _ => true
  | _ => false

/-- Resolved output of `build`: the `FsData` map for managed entries and the
final values of the rewritten borrowed paths. -/
structure FsOut where
  map : List RsPath
  rewritten : List RsPath
deriving DecidableEq

/-- Run a sequence of operations where each either succeeds (per the oracle) or
aborts the build; the trace records every operation that was started. -/
def stepChain (ok : BEv → Bool) : List BEv → Option FsOut → List BEv × Option FsOut
  | [], out => ([], out)
  | e :: rest, out =>
    if ok e then
      let r := stepChain ok rest out
      (e :: r.1, r.2)
    else ([e], none)

/-- World state and child-process oracles consumed by `Setup::build` at run
time. `env` is the runtime environment as seen during `build` (the consent gate
reads `CARGO_XTEST_DATA_FETCH` from it). -/
structure BuildWorld where
  env : Env
  statusSpawn : SpawnResult
  trackedItems : Except String (List String)
  createDirAll : Except String Unit
  packGit : GitOracle
  gitOps : BEv → Bool
  fs : FsSt
  rng : Nat → Nat → Nat
  mkdirAllow : RsPath → Bool
  fuel : Nat

/-- Local-mode result map (src/lib.rs:383-391): managed entries joined onto the
manifest directory, borrowed entries rewritten by `set_root`. -/
def Setup.localOut (s : Setup) : FsOut :=
  ⟨s.resources.relative_files.map (fun p => s.manifest.join p),
   s.resources.unmanaged.map (fun p => set_root s.manifest p)⟩

/-- Packaged-mode result map (src/lib.rs:430-437): entries resolved under the
fresh worktree. -/
def Setup.packagedOut (s : Setup) (datapath : RsPath) : FsOut :=
  ⟨s.resources.relative_files.map (fun p => datapath.join p),
   s.resources.unmanaged.map (fun p => set_root datapath p)⟩

/-- `Setup::build` (src/lib.rs:369-448).
Local mode: construct the `CrateDir`, verify tracked status, optionally run the
pack-objects recording pass, and resolve all paths against the manifest.
Packaged mode: derive the store path `<datadir>/xtest-data-git` and a unique
worktree `<datadir>/xtest-data-tree<hex>`; with a pre-shipped pack directory
bare-init at the pinned commit, unpack and check out; without one, run the
consent gate first and on success shallow-clone, fetch the pinned commit and
check out. Returns the ordered operation trace and, when nothing aborted, the
resolved paths. -/
def Setup.build (s : Setup) (w : BuildWorld) : List BEv × Option FsOut :=
  match s.source with
  | Source.localSource =>
    match CrateDir.new w.statusSpawn s.manifest with
    | Except.error _ => ([], none)
    | Except.ok _ =>
      match CrateDir.tracked w.trackedItems s.resources.path_specs with
      | Except.error _ => ([], none)
      | Except.ok _ =>
        match s.pack_objects with
        | some po =>
          match w.createDirAll with
          | Except.error _ => ([BEv.tracked], none)
          | Except.ok _ =>
            match CrateDir.pack_objects w.packGit s.resources.path_specs (RsPath.rel [po]) with
            | Except.error _ => ([BEv.tracked], none)
            | Except.ok _ => ([BEv.tracked, BEv.packWrite], some s.localOut)
        | none => ([BEv.tracked], some s.localOut)
  | Source.vcsFromManifest commit datadir =>
    let gitpath := datadir.join (RsPath.rel ["xtest-data-git"])
    match (unique_dir datadir "xtest-data-tree" w.rng w.mkdirAllow w.fuel w.fs).2 with
    | none => ([], none)
    | some (Except.error _) => ([], none)
    | some (Except.ok datapath) =>
      match s.pack_objects with
      | some _ =>
        stepChain w.gitOps
          [BEv.bareInit commit.val, BEv.unpack, BEv.checkout commit.val]
          (some (s.packagedOut datapath))
      | none =>
        match Git.consent_to_use w.env gitpath datapath ⟨s.repository⟩ commit
            s.resources.as_paths s.resources.path_specs with
        | Except.error _ => ([BEv.consent], none)
        | Except.ok cleared =>
          let r := stepChain w.gitOps
            [BEv.clone cleared.url, BEv.fetch cleared.url commit.val, BEv.checkout commit.val]
            (some (s.packagedOut datapath))
          (BEv.consent :: r.1, r.2)

/-! Concrete instances used by the witnesses and counterexamples. -/

/-- A 40-character commit string for concrete runs. -/
def sha40 : String := "0123456789abcdef0123456789abcdef01234567"

/-- Concrete commit pin. -/
def c0 : CommitId := ⟨sha40⟩

/-- Concrete data directory. -/
def d0 : RsPath := ⟨false, ["tmp"]⟩

/-- Concrete manifest directory. -/
def m0 : RsPath := ⟨false, ["crate"]⟩

/-- Concrete origin. -/
def o0 : Origin := ⟨"https://example.invalid/repo"⟩

/-- Concrete managed resource path. -/
def relData : RsPath := ⟨false, ["tests", "data.zip"]⟩

/-- Concrete borrowed resource path. -/
def qbin : RsPath := ⟨false, ["q.bin"]⟩

/-- Concrete git oracle whose hash-object child returns a valid 40-byte id and
whose rev-lists are empty. -/
def o40 : GitOracle := ⟨fun _ => sha40, fun _ => ""⟩

/-- Environment with everything unset. -/
def env0 : Env := ⟨none, none, none, none, none⟩

/-- Environment granting fetch consent. -/
def envYes : Env := ⟨some (EnvVal.str "yes"), none, none, none, none⟩

/-- Deterministic all-zero PRNG. -/
def rngZero : Nat → Nat → Nat := fun _ _ => 0

/-- Filesystem oracle allowing every directory creation. -/
def allowAll : RsPath → Bool := fun _ => true

/-- Concrete build world with all children succeeding, parameterised by the
runtime environment. -/
def bw (e : Env) : BuildWorld :=
  ⟨e, SpawnResult.exited true, Except.ok [], Except.ok (), o40, fun _ => true, ⟨[]⟩,
   rngZero, allowAll, 1⟩

/-- Concrete packaged-mode setup with a pre-shipped pack directory. -/
def sPack : Setup := ⟨o0.url, m0, Source.vcsFromManifest c0 d0, ⟨[relData], []⟩, some "packs"⟩

/-- Concrete packaged-mode setup without a pre-shipped pack directory. -/
def sNoPack : Setup := ⟨o0.url, m0, Source.vcsFromManifest c0 d0, ⟨[relData], []⟩, none⟩

/-- Concrete local-mode setup. -/
def sLocal : Setup := ⟨o0.url, m0, Source.localSource, ⟨[relData], [qbin]⟩, none⟩

/-- Concrete compile-time options. -/
def opts0 : EnvOptions := ⟨o0.url, m0, some d0⟩

/-- Concrete parsed pin file with a valid sha1. -/
def json40 : Json := Json.jobj [("git", Json.jobj [("sha1", Json.jstr sha40)])]

/-- Concrete setup world in packaged mode. -/
def sw0 : SetupWorld := ⟨env0, VcsInfoState.parsed json40, true⟩

/-- A pathspec whose path embeds a newline. -/
def psNewline : PathSpec := ⟨⟨false, ["a\nb"]⟩⟩

/-- A plain pathspec. -/
def psPlain : PathSpec := ⟨relData⟩

/-- Concrete pack output directory. -/
def pn0 : RsPath := ⟨false, ["packs"]⟩

/-! Theorems. -/

/-- C2: the consent gate reads `CARGO_XTEST_DATA_FETCH` and permits access
exactly for the case-sensitive values `yes`, `1` and `true`; for every other
value (absent, non-unicode, unrecognized) it writes the plan — store path,
origin, commit, destination and per-resource pathspecs — to the diagnostic
stream and aborts; on success the `ClearedOrigin` carries the input URL. -/
theorem consent_gate_spec (env : Env) (gitpath datapath : RsPath) (origin : Origin)
    (commit : CommitId) (resources : List RsPath) (pathspecs : List PathSpec) :
    ((∃ cl, Git.consent_to_use env gitpath datapath origin commit resources pathspecs
        = Except.ok cl) ↔
      (consentValue env = some "yes" ∨ consentValue env = some "1" ∨
        consentValue env = some "true")) ∧
    (∀ cl, Git.consent_to_use env gitpath datapath origin commit resources pathspecs
        = Except.ok cl → cl.url = origin.url) ∧
    (¬ (consentValue env = some "yes" ∨ consentValue env = some "1" ∨
        consentValue env = some "true") →
      Git.consent_to_use env gitpath datapath origin commit resources pathspecs
        = Except.error (consentPlan gitpath datapath origin commit resources pathspecs) ∧
      ("Set up bare Git dir in: " ++ gitpath.display)
        ∈ consentPlan gitpath datapath origin commit resources pathspecs ∧
      ("Git Origin: " ++ origin.url)
        ∈ consentPlan gitpath datapath origin commit resources pathspecs ∧
      ("Fetch Commit: " ++ commit.val)
        ∈ consentPlan gitpath datapath origin commit resources pathspecs ∧
      ("Checkout files into: " ++ datapath.display)
        ∈ consentPlan gitpath datapath origin commit resources pathspecs ∧
      (∀ r p, (r, p) ∈ resources.zip pathspecs →
        ("  into " ++ r.display ++ ": " ++ p.render)
          ∈ consentPlan gitpath datapath origin commit resources pathspecs)) := by
  have haccept : consentAccepts (consentValue env) = true ↔
      (consentValue env = some "yes" ∨ consentValue env = some "1" ∨
        consentValue env = some "true") := by
    simp [consentAccepts, or_assoc]
  constructor
  · constructor
    · intro ⟨cl, hcl⟩
      rw [← haccept]
      by_contra hno
      rw [Bool.not_eq_true] at hno
      simp [Git.consent_to_use, hno] at hcl
    · intro hv
      refine ⟨⟨origin.url⟩, ?_⟩
      simp [Git.consent_to_use, haccept.mpr hv]
  constructor
  · intro cl hcl
    by_cases hb : consentAccepts (consentValue env) = true
    · simp [Git.consent_to_use, hb] at hcl
      rw [← hcl]
    · rw [Bool.not_eq_true] at hb
      simp [Git.consent_to_use, hb] at hcl
  · intro hno
    have hb : consentAccepts (consentValue env) = false := by
      rw [← Bool.not_eq_true, haccept]; exact hno
    refine ⟨by simp [Git.consent_to_use, hb], ?_, ?_, ?_, ?_, ?_⟩
    · simp [consentPlan]
    · simp [consentPlan]
    · simp [consentPlan]
    · simp [consentPlan]
    · intro r p hm
      have hmem : ("  into " ++ r.display ++ ": " ++ p.render)
          ∈ (resources.zip pathspecs).map
            (fun rp => "  into " ++ rp.1.display ++ ": " ++ rp.2.render) :=
        List.mem_map.mpr ⟨(r, p), hm, rfl⟩
      unfold consentPlan
      exact List.mem_append.mpr (Or.inl (List.mem_append.mpr (Or.inl
        (List.mem_append.mpr (Or.inr hmem)))))

/-- Witness for C2 at concrete inputs: consent is granted for `yes` and carries
the origin URL, and is denied with the plan when the variable is unset. -/
theorem consent_gate_spec_witness :
    (∃ cl, Git.consent_to_use envYes d0 m0 o0 c0 [relData] [psPlain] = Except.ok cl) ∧
    Git.consent_to_use env0 d0 m0 o0 c0 [relData] [psPlain]
      = Except.error (consentPlan d0 m0 o0 c0 [relData] [psPlain]) ∧
    ("  into " ++ relData.display ++ ": " ++ psPlain.render)
      ∈ consentPlan d0 m0 o0 c0 [relData] [psPlain] := by
  refine ⟨(consent_gate_spec envYes d0 m0 o0 c0 [relData] [psPlain]).1.mpr
      (Or.inl rfl), ?_, ?_⟩
  · exact ((consent_gate_spec env0 d0 m0 o0 c0 [relData] [psPlain]).2.2 (by decide)).1
  · exact ((consent_gate_spec env0 d0 m0 o0 c0 [relData] [psPlain]).2.2 (by decide)).2.2.2.2.2
      relData psPlain (by decide)

/-- C4 counterexample: `ShallowBareRepository::checkout` mutates the store (it
runs `worktree add` against the shared git dir) without ever acquiring the
advisory file lock, in both the sparse and the fallback branch. -/
theorem checkout_lock_counterexample :
    LockEv.acquire ∉ ShallowBareRepository.checkoutLock true ∧
    LockEv.acquire ∉ ShallowBareRepository.checkoutLock false ∧
    LockEv.child "worktree add" ∈ ShallowBareRepository.checkoutLock true := by
  decide

/-- C4 amended: shallow clone, bare init, fetch and unpack acquire the exclusive
advisory lock before their store mutation and release it on exit; dropping the
guard aborts the process exactly when the release fails; `checkout` performs no
lock acquisition at all. -/
theorem lock_guard_amended :
    (∀ b, lockGuarded (Git.shallowCloneLock b) = true) ∧
    (∀ b, lockGuarded (Git.bareLock b) = true) ∧
    lockGuarded ShallowBareRepository.fetchLock = true ∧
    (∀ entries, lockGuarded (ShallowBareRepository.unpackLock entries) = true) ∧
    (∀ b, LockEv.acquire ∉ ShallowBareRepository.checkoutLock b) ∧
    (∀ ok, FileWaitLock.dropGuard ok = DropOutcome.processAbort ↔ ok = false) := by
  refine ⟨fun b => by cases b <;> decide, fun b => by cases b <;> decide, by decide,
    fun entries => ?_, fun b => by cases b <;> decide, fun ok => by cases ok <;> simp [FileWaitLock.dropGuard]⟩
  simp only [ShallowBareRepository.unpackLock, lockGuarded]
  rw [List.getLast?_concat]
  simp

/-- C5 counterexample: the clone child and the `CrateDir` status child exit with
a failure status, yet neither `Git::shallow_clone` nor `CrateDir::new` aborts —
both return success handles and no stderr is written. -/
theorem clone_exit_ignored_counterexample :
    Git.shallow_clone false (SpawnResult.exited false) d0 ⟨o0.url⟩ = Except.ok ⟨d0⟩ ∧
    CrateDir.new (SpawnResult.exited false) m0 = Except.ok ⟨m0⟩ := by
  exact ⟨rfl, rfl⟩

/-- C5 amended: `CrateDir::new` and `Git::shallow_clone` abort exactly when the
`status()` call itself fails with an I/O error, and ignore the child's exit
status (no stderr is written); the output-capturing operations abort on a
non-zero child exit writing the captured stderr before the diagnostic — fetch,
every unpack-objects child, the checkout children (worktree add, forced
checkout, fallback-slow; the sparse-checkout attempt instead falls back to the
slow branch), and every stage of the pack-objects pipeline (hash-object, both
rev-lists, pack-objects). -/
theorem driver_abort_amended :
    (∀ msg p, CrateDir.new (SpawnResult.ioError msg) p = Except.error (inconclusive msg)) ∧
    (∀ b p, CrateDir.new (SpawnResult.exited b) p = Except.ok ⟨p⟩) ∧
    (∀ pe msg p o, Git.shallow_clone pe (SpawnResult.ioError msg) p o
      = Except.error (inconclusive msg)) ∧
    (∀ pe b p o, Git.shallow_clone pe (SpawnResult.exited b) p o = Except.ok ⟨p⟩) ∧
    (∀ msg, ShallowBareRepository.fetch (OutputResult.ioError msg)
      = Except.error (inconclusive msg)) ∧
    (∀ st, ShallowBareRepository.fetch (OutputResult.finished false st)
      = Except.error (st :: inconclusive "Git operation was not successful")) ∧
    (∀ st, ShallowBareRepository.fetch (OutputResult.finished true st) = Except.ok ()) ∧
    (∀ st rest, ShallowBareRepository.unpack (OutputResult.finished false st :: rest)
      = Except.error (st :: inconclusive "Git operation was not successful")) ∧
    (∀ msg rest, ShallowBareRepository.unpack (OutputResult.ioError msg :: rest)
      = Except.error (inconclusive msg)) ∧
    (∀ s rest, ShallowBareRepository.unpack (OutputResult.finished true s :: rest)
      = ShallowBareRepository.unpack rest) ∧
    ShallowBareRepository.unpack [] = Except.ok () ∧
    (∀ sOk fRes slRes st,
      ShallowBareRepository.checkoutGate (OutputResult.finished false st) sOk fRes slRes
        = Except.error (st :: inconclusive "Git operation was not successful")) ∧
    (∀ s slRes st,
      ShallowBareRepository.checkoutGate (OutputResult.finished true s) true
        (OutputResult.finished false st) slRes
        = Except.error (st :: inconclusive "Git operation was not successful")) ∧
    (∀ s s2 st,
      ShallowBareRepository.checkoutGate (OutputResult.finished true s) true
        (OutputResult.finished true s2) (OutputResult.finished false st)
        = Except.error (st :: inconclusive "Git operation was not successful")) ∧
    (∀ s fRes st,
      ShallowBareRepository.checkoutGate (OutputResult.finished true s) false fRes
        (OutputResult.finished false st)
        = Except.error (st :: inconclusive "Git operation was not successful")) ∧
    (∀ r1 r2 r3 st,
      CrateDir.packObjectsGate (OutputResult.finished false st) r1 r2 r3
        = Except.error (st :: inconclusive "Git operation was not successful")) ∧
    (∀ s r2 r3 st,
      CrateDir.packObjectsGate (OutputResult.finished true s)
        (OutputResult.finished false st) r2 r3
        = Except.error (st :: inconclusive "Git operation was not successful")) ∧
    (∀ s s2 r3 st,
      CrateDir.packObjectsGate (OutputResult.finished true s)
        (OutputResult.finished true s2) (OutputResult.finished false st) r3
        = Except.error (st :: inconclusive "Git operation was not successful")) ∧
    (∀ s s2 s3 st,
      CrateDir.packObjectsGate (OutputResult.finished true s)
        (OutputResult.finished true s2) (OutputResult.finished true s3)
        (OutputResult.finished false st)
        = Except.error (st :: inconclusive "Git operation was not successful")) := by
  exact ⟨fun _ _ => rfl, fun _ _ => rfl, fun _ _ _ _ => rfl, fun _ _ _ _ => rfl,
    fun _ => rfl, fun _ => rfl, fun _ => rfl, fun _ _ => rfl, fun _ _ => rfl,
    fun _ _ => rfl, rfl, fun _ _ _ _ => rfl, fun _ _ _ => rfl, fun _ _ _ => rfl,
    fun _ _ _ => rfl, fun _ _ _ _ => rfl, fun _ _ _ _ => rfl, fun _ _ _ _ => rfl,
    fun _ _ _ _ => rfl⟩

/-- C8: a pin whose trimmed `sha1` has fewer than 40 bytes makes `_setup` abort
with the guard's diagnostic, and every constructed `CommitId` is the trimmed
token of its input with at least 40 bytes. -/
theorem commit_pin_length (opts : EnvOptions) (sw : SetupWorld) (j g s1 : Json)
    (str : String)
    (hrepo : (opts.pkg_repository == "") = false)
    (hj : sw.vcsInfo = VcsInfoState.parsed j)
    (hg : j.get_key "git" = some g)
    (hs : g.get_key "sha1" = some s1)
    (hstr : s1.getString = some str)
    (hlen : (rustTrim str).utf8ByteSize < 40) :
    _setup opts sw = Except.error
      ["Unlikely to be a safe Git Object ID in vcs pin file: " ++ rustTrim str] ∧
    (∀ t c, CommitId.fromStr t = Except.ok c →
      c.val = rustTrim t ∧ 40 ≤ c.val.utf8ByteSize) := by
  constructor
  · have hfrom : CommitId.fromStr str = Except.error
        ["Unlikely to be a safe Git Object ID in vcs pin file: " ++ rustTrim str] := by
      simp [CommitId.fromStr, Nat.not_le.mpr hlen]
    simp [_setup, hrepo, hj, hg, hs, hstr, hfrom]
  · intro t c hc
    by_cases h40 : 40 ≤ (rustTrim t).utf8ByteSize
    · simp [CommitId.fromStr, h40] at hc
      rw [← hc]
      exact ⟨rfl, h40⟩
    · simp [CommitId.fromStr, h40] at hc

/-- Witness for C8: a three-character sha1 aborts setup with the guard message,
and a valid 40-character input yields exactly its trimmed token. -/
theorem commit_pin_length_witness :
    _setup opts0 ⟨env0, VcsInfoState.parsed
        (Json.jobj [("git", Json.jobj [("sha1", Json.jstr "abc")])]), true⟩
      = Except.error ["Unlikely to be a safe Git Object ID in vcs pin file: "
          ++ rustTrim "abc"] ∧
    (⟨rustTrim sha40⟩ : CommitId).val = rustTrim sha40 ∧
    40 ≤ (⟨rustTrim sha40⟩ : CommitId).val.utf8ByteSize := by
  have h := commit_pin_length opts0
    ⟨env0, VcsInfoState.parsed (Json.jobj [("git", Json.jobj [("sha1", Json.jstr "abc")])]), true⟩
    (Json.jobj [("git", Json.jobj [("sha1", Json.jstr "abc")])])
    (Json.jobj [("sha1", Json.jstr "abc")]) (Json.jstr "abc") "abc"
    rfl rfl rfl rfl rfl (by decide)
  exact ⟨h.1, h.2 sha40 ⟨rustTrim sha40⟩ rfl⟩

/-- A second environment granting consent but differing from `envYes` in an
unrelated variable. -/
def envYes2 : Env := ⟨some (EnvVal.str "yes"), some "elsewhere", none, none, none⟩

/-- The trace produced by `stepChain` is always a prefix of the planned
operation list: operations run in order and a failure stops the run. -/
theorem stepChain_prefix (ok : BEv → Bool) (evs : List BEv) (out : Option FsOut) :
    (stepChain ok evs out).1 <+: evs := by
  induction evs with
  | nil => exact List.nil_prefix
  | cons e rest ih =>
    by_cases h : ok e = true
    · simp only [stepChain, h, if_pos]
      obtain ⟨t, ht⟩ := ih
      exact ⟨t, by rw [List.cons_append, ht]⟩
    · rw [Bool.not_eq_true] at h
      simp only [stepChain, h, Bool.false_eq_true, if_false]
      exact ⟨rest, rfl⟩

/-- C1: in packaged mode with a pre-shipped pack directory, `build()` performs
only the bare init at the pinned commit, the unpack and the checkout (in that
order) — in particular no consent gate, no clone and no fetch; without a
pre-shipped pack no network or object-store operation precedes the consent
gate in the trace. -/
theorem build_packaged_consent_order (s : Setup) (w : BuildWorld)
    (commit : CommitId) (datadir : RsPath)
    (hsrc : s.source = Source.vcsFromManifest commit datadir) :
    (∀ po, s.pack_objects = some po →
      (Setup.build s w).1
        <+: [BEv.bareInit commit.val, BEv.unpack, BEv.checkout commit.val]) ∧
    (s.pack_objects = none →
      ((Setup.build s w).1.takeWhile (fun e => !e.isConsent)).all
        (fun e => !(e.isNetwork || e.isStoreOp)) = true) := by
  constructor
  · intro po hpo
    unfold Setup.build
    rw [hsrc, hpo]
    dsimp only
    rcases h2 : (unique_dir datadir "xtest-data-tree" w.rng w.mkdirAllow w.fuel w.fs).2
      with _ | res
    · exact List.nil_prefix
    · rcases res with e | datapath
      · exact List.nil_prefix
      · exact stepChain_prefix w.gitOps _ _
  · intro hpo
    unfold Setup.build
    rw [hsrc, hpo]
    dsimp only
    rcases h2 : (unique_dir datadir "xtest-data-tree" w.rng w.mkdirAllow w.fuel w.fs).2
      with _ | res
    · rfl
    · rcases res with e | datapath
      · rfl
      · dsimp only
        rcases hc : Git.consent_to_use w.env
            (datadir.join (RsPath.rel ["xtest-data-git"])) datapath ⟨s.repository⟩ commit
            s.resources.as_paths s.resources.path_specs with e | cl
        · rfl
        · dsimp only
          simp [List.takeWhile_cons, BEv.isConsent]

/-- Witness for C1 at a concrete packaged setup: the with-pack trace is a prefix
of [bare-init, unpack, checkout], and the no-pack trace performs no network or
store operation before the consent gate. -/
theorem build_packaged_consent_order_witness :
    (Setup.build sPack (bw env0)).1
      <+: [BEv.bareInit c0.val, BEv.unpack, BEv.checkout c0.val] ∧
    ((Setup.build sNoPack (bw env0)).1.takeWhile (fun e => !e.isConsent)).all
      (fun e => !(e.isNetwork || e.isStoreOp)) = true :=
  ⟨(build_packaged_consent_order sPack (bw env0) c0 d0 rfl).1 "packs" rfl,
   (build_packaged_consent_order sNoPack (bw env0) c0 d0 rfl).2 rfl⟩

/-- C3 counterexample: with the same setup-time world, changing only
`CARGO_XTEST_DATA_FETCH` between `setup()` and `build()` changes the result of
`build()` — the consent gate re-reads the environment at build time, so the
claim that mutating consumed variables after setup has no effect is false. -/
theorem env_reread_counterexample :
    (match _setup opts0 sw0 with
     | Except.ok s => some (Setup.build s (bw envYes))
     | Except.error _ => none)
    ≠ (match _setup opts0 sw0 with
       | Except.ok s => some (Setup.build s (bw env0))
       | Except.error _ => none) := by
  decide

/-- C3 amended: the environment inputs other than `CARGO_XTEST_DATA_FETCH` are
snapshot at setup time — `build()` depends on the build-time environment only
through `CARGO_XTEST_DATA_FETCH`, and `_setup` does not read that variable at
all. -/
theorem env_snapshot_amended (s : Setup) (w : BuildWorld) (e1 e2 : Env)
    (hf : e1.fetch = e2.fetch) :
    Setup.build s { w with env := e1 } = Setup.build s { w with env := e2 } ∧
    (∀ (opts : EnvOptions) (sw : SetupWorld) (v1 v2 : Option EnvVal),
      _setup opts { sw with env := { sw.env with fetch := v1 } }
        = _setup opts { sw with env := { sw.env with fetch := v2 } }) := by
  constructor
  · have hcv : consentValue e1 = consentValue e2 := by
      unfold consentValue
      rw [hf]
    unfold Setup.build
    cases hs : s.source with
    | localSource => rfl
    | vcsFromManifest commit datadir =>
      dsimp only
      simp only [Git.consent_to_use, hcv]
  · intro opts sw v1 v2
    rfl

/-- Witness for C3 amended: two environments agreeing on the fetch variable but
differing in the origin override produce identical builds, and `_setup` is
unaffected by the fetch variable. -/
theorem env_snapshot_amended_witness :
    Setup.build sNoPack { bw env0 with env := envYes }
      = Setup.build sNoPack { bw env0 with env := envYes2 } ∧
    _setup opts0 { sw0 with env := { sw0.env with fetch := some (EnvVal.str "1") } }
      = _setup opts0 { sw0 with env := { sw0.env with fetch := none } } :=
  ⟨(env_snapshot_amended sNoPack (bw env0) envYes envYes2 rfl).1,
   (env_snapshot_amended sNoPack (bw env0) envYes envYes2 rfl).2 opts0 sw0
     (some (EnvVal.str "1")) none⟩

/-- A successful local-mode `build()` resolves through `localOut`. -/
theorem build_local_out (s : Setup) (w : BuildWorld) (out : FsOut)
    (hsrc : s.source = Source.localSource)
    (hok : (Setup.build s w).2 = some out) : out = s.localOut := by
  unfold Setup.build at hok
  rw [hsrc] at hok
  dsimp only at hok
  rcases hnew : CrateDir.new w.statusSpawn s.manifest with e | dir
  · rw [hnew] at hok
    simp at hok
  · rw [hnew] at hok
    dsimp only at hok
    rcases htr : CrateDir.tracked w.trackedItems s.resources.path_specs with e | u
    · rw [htr] at hok
      simp at hok
    · rw [htr] at hok
      dsimp only at hok
      rcases hpo : s.pack_objects with _ | po
      · rw [hpo] at hok
        dsimp only at hok
        exact Option.some_injective _ hok.symm
      · rw [hpo] at hok
        dsimp only at hok
        rcases hcd : w.createDirAll with e | u
        · rw [hcd] at hok
          simp at hok
        · rw [hcd] at hok
          dsimp only at hok
          rcases hp : CrateDir.pack_objects w.packGit s.resources.path_specs (RsPath.rel [po])
            with e | tr
          · rw [hp] at hok
            simp at hok
          · rw [hp] at hok
            dsimp only at hok
            exact Option.some_injective _ hok.symm

/-- C6: in local mode, after a successful `build()` every managed entry resolves
through `FsData::path` to the manifest directory joined with its registered
relative path, and every borrowed entry is rewritten in place to the same
joined form. -/
theorem local_resolved_paths (s : Setup) (w : BuildWorld) (out : FsOut)
    (hsrc : s.source = Source.localSource)
    (hok : (Setup.build s w).2 = some out) :
    (∀ i p, s.resources.relative_files.get? i = some p → p.absolute = false →
      FsData.path ⟨out.map⟩ i
        = some ⟨s.manifest.absolute, s.manifest.components ++ p.components⟩) ∧
    (∀ i p, s.resources.unmanaged.get? i = some p → p.absolute = false →
      out.rewritten.get? i
        = some ⟨s.manifest.absolute, s.manifest.components ++ p.components⟩) := by
  have hout := build_local_out s w out hsrc hok
  subst hout
  constructor
  · intro i p hp habs
    rw [List.get?_eq_getElem?] at hp
    simp [FsData.path, Setup.localOut, List.get?_eq_getElem?, List.getElem?_map, hp,
      RsPath.join, habs]
  · intro i p hp habs
    rw [List.get?_eq_getElem?] at hp
    simp [Setup.localOut, set_root, List.get?_eq_getElem?, List.getElem?_map, hp,
      RsPath.join, habs]

/-- Witness for C6: the concrete local setup resolves its managed entry to
`<manifest>/tests/data.zip` and its borrowed entry to `<manifest>/q.bin`. -/
theorem local_resolved_paths_witness :
    FsData.path ⟨sLocal.localOut.map⟩ 0
      = some ⟨m0.absolute, m0.components ++ relData.components⟩ ∧
    sLocal.localOut.rewritten.get? 0
      = some ⟨m0.absolute, m0.components ++ qbin.components⟩ := by
  have h := local_resolved_paths sLocal (bw env0) sLocal.localOut rfl rfl
  exact ⟨h.1 0 relData rfl rfl, h.2 0 qbin rfl rfl⟩

/-- Expected trace of the concrete pack run used by the C7 witness. -/
def tr0 : PackTrace :=
  { hashStdin := CrateDir.hashInput [psPlain],
    sparseOid := rustTrim sha40,
    revListFilters := ["--filter=sparse:oid=" ++ rustTrim sha40, "--filter=blob:none"],
    packStdin := "",
    packOutputArg := pn0.join (RsPath.rel ["xtest-data"]) }

/-- C7 counterexample: with a single pathspec whose path embeds a newline, the
run streams an empty byte sequence into `hash-object --stdin` — the complex
pathspec is silently dropped from the sparse-oid computation, whereas the claim
demands the NUL-terminated list of the given pathspecs (which is nonempty). -/
theorem pack_complex_excluded_counterexample :
    (CrateDir.pack_objects o40 [psNewline] pn0).map PackTrace.hashStdin
      = Except.ok "" ∧
    CrateDir.hashInput [psNewline] ≠ "" := by
  constructor
  · rfl
  · decide

/-- C7 amended: for every pathspec sequence, the pack run hashes the
NUL-terminated list of the *simple* pathspecs (complex ones are excluded),
queries the `sparse:oid` rev-list and the `blob:none` rev-list, streams exactly
their concatenation into `pack-objects --incremental`, and writes packs under
`<output>/xtest-data`. -/
theorem pack_objects_pipeline_amended (o : GitOracle) (paths : List PathSpec)
    (packName : RsPath) (tr : PackTrace)
    (h : CrateDir.pack_objects o paths packName = Except.ok tr) :
    tr.hashStdin = CrateDir.hashInput (pathSpecFilter paths).1 ∧
    tr.sparseOid
      = rustTrim (o.hashObjectOut (CrateDir.hashInput (pathSpecFilter paths).1)) ∧
    tr.packStdin = o.revListOut ("--filter=sparse:oid=" ++ tr.sparseOid)
      ++ o.revListOut "--filter=blob:none" ∧
    tr.revListFilters = ["--filter=sparse:oid=" ++ tr.sparseOid, "--filter=blob:none"] ∧
    tr.packOutputArg = packName.join (RsPath.rel ["xtest-data"]) := by
  unfold CrateDir.pack_objects at h
  dsimp only at h
  rcases hs : CrateDir.sparse_rev_list o (pathSpecFilter paths).1 with e | res
  · rw [hs] at h
    simp at h
  · rw [hs] at h
    dsimp only at h
    have hres : res.1
        = rustTrim (o.hashObjectOut (CrateDir.hashInput (pathSpecFilter paths).1)) ∧
        res.2 = o.revListOut ("--filter=sparse:oid=" ++ res.1)
          ++ o.revListOut "--filter=blob:none" := by
      unfold CrateDir.sparse_rev_list at hs
      rcases hh : CrateDir.hash_sparse_oid o (pathSpecFilter paths).1 with e2 | cid
      · rw [hh] at hs
        simp at hs
      · rw [hh] at hs
        dsimp only at hs
        have hcid : cid.val
            = rustTrim (o.hashObjectOut (CrateDir.hashInput (pathSpecFilter paths).1)) := by
          unfold CrateDir.hash_sparse_oid CommitId.fromStr at hh
          by_cases h40 : 40 ≤ (rustTrim
              (o.hashObjectOut (CrateDir.hashInput (pathSpecFilter paths).1))).utf8ByteSize
          · simp only [h40, if_pos] at hh
            cases hh
            rfl
          · simp only [h40, if_neg, if_false] at hh
            simp at hh
        cases hs
        exact ⟨hcid, by rw [hcid]⟩
    cases h
    refine ⟨rfl, hres.1, ?_, ?_, rfl⟩
    · dsimp only
      rw [hres.2]
    · dsimp only

/-- Witness for C7 amended at a concrete run mixing a simple and a complex
pathspec: the hash stdin is exactly the simple part and the packs go under
`<output>/xtest-data`. -/
theorem pack_objects_pipeline_amended_witness :
    tr0.hashStdin = CrateDir.hashInput (pathSpecFilter [psPlain, psNewline]).1 ∧
    tr0.packOutputArg = pn0.join (RsPath.rel ["xtest-data"]) := by
  have h := pack_objects_pipeline_amended o40 [psPlain, psNewline] pn0 tr0 rfl
  exact ⟨h.1, h.2.2.2.2⟩

/-- The hex expansion of n bytes has 2·n characters. -/
theorem hexChars_length (num : Nat → Nat) (n : Nat) :
    (hexChars num n).length = 2 * n := by
  induction n with
  | zero => rfl
  | succ k ih =>
    simp [hexChars, hexByteChars, ih]
    omega

/-- Every entry of the hex table selected by an in-range index is a hex digit. -/
theorem table_getD_mem (n : Nat) (h : n < 16) : TABLE.getD n 'x' ∈ TABLE := by
  interval_cases n <;> decide

/-- Every character of the hex expansion is a hex digit. -/
theorem hexChars_mem (num : Nat → Nat) (n : Nat) :
    ∀ c ∈ hexChars num n, c ∈ TABLE := by
  induction n with
  | zero =>
    intro c hc
    simp [hexChars] at hc
  | succ k ih =>
    intro c hc
    simp only [hexChars, List.mem_append] at hc
    rcases hc with hc | hc
    · exact ih c hc
    · simp only [hexByteChars, List.mem_cons, List.not_mem_nil, or_false] at hc
      rcases hc with hc | hc
      · rw [hc]
        exact table_getD_mem _ (Nat.mod_lt _ (by norm_num))
      · rw [hc]
        exact table_getD_mem _ (Nat.mod_lt _ (by norm_num))

/-- A successful `unique_dir` loop returns a directory that did not exist at
entry and records it as created. -/
theorem unique_dir_go_created (base : RsPath) (pref : String) (rng : Nat → Nat → Nat)
    (allow : RsPath → Bool) :
    ∀ fuel k fs fs' p,
      unique_dir_go base pref rng allow fuel k fs = (fs', some (Except.ok p)) →
      p ∉ fs.dirs ∧ fs'.dirs = p :: fs.dirs := by
  intro fuel
  induction fuel with
  | zero =>
    intro k fs fs' p h
    simp [unique_dir_go] at h
  | succ n ih =>
    intro k fs fs' p h
    unfold unique_dir_go createDir at h
    by_cases hin : base.join (RsPath.rel [generate_name pref (rng k)]) ∈ fs.dirs
    · simp only [hin, if_pos] at h
      exact ih (k + 1) fs fs' p h
    · by_cases hall : allow (base.join (RsPath.rel [generate_name pref (rng k)])) = true
      · simp only [hin, if_neg, if_false, hall, if_pos, if_true] at h
        injection h with h1 h2
        injection h2 with h2
        injection h2 with h2
        subst h2
        exact ⟨hin, by rw [← h1]⟩
      · rw [Bool.not_eq_true] at hall
        simp only [hin, if_neg, if_false, hall, Bool.false_eq_true, if_false] at h
        simp at h

/-- C9 counterexample: the concrete worktree directory allocated by
`unique_dir` is named `xtest-data-tree0000000000000000` — the hex suffix
follows the prefix with no separating hyphen, so the claimed shape
`xtest-data-tree-<hex>` (hyphen before the suffix) does not hold. -/
theorem unique_dir_name_counterexample :
    (unique_dir d0 "xtest-data-tree" rngZero allowAll 1 ⟨[]⟩).2
      = some (Except.ok ⟨false, ["tmp", "xtest-data-tree0000000000000000"]⟩) ∧
    "xtest-data-tree0000000000000000".data.take 16 ≠ "xtest-data-tree-".data := by
  constructor
  · rfl
  · decide

/-- C9 amended: the worktree name is the prefix `xtest-data-tree` immediately
followed (no separator) by exactly 16 hex characters drawn from the PRNG; the
loop retries with a fresh name exactly when creation fails with already-exists,
stops on any other error, returns only a directory freshly created by this
call, and two successive invocations never return the same path. -/
theorem unique_dir_amended :
    (∀ num, generate_name "xtest-data-tree" num
        = "xtest-data-tree" ++ String.mk (hexChars num 8) ∧
      (hexChars num 8).length = 16 ∧ ∀ c ∈ hexChars num 8, c ∈ TABLE) ∧
    (∀ base pref rng allow fuel k fs,
      (base.join (RsPath.rel [generate_name pref (rng k)]) ∈ fs.dirs →
        unique_dir_go base pref rng allow (fuel + 1) k fs
          = unique_dir_go base pref rng allow fuel (k + 1) fs) ∧
      (base.join (RsPath.rel [generate_name pref (rng k)]) ∉ fs.dirs →
        allow (base.join (RsPath.rel [generate_name pref (rng k)])) = true →
        unique_dir_go base pref rng allow (fuel + 1) k fs
          = (⟨base.join (RsPath.rel [generate_name pref (rng k)]) :: fs.dirs⟩,
             some (Except.ok (base.join (RsPath.rel [generate_name pref (rng k)]))))) ∧
      (base.join (RsPath.rel [generate_name pref (rng k)]) ∉ fs.dirs →
        allow (base.join (RsPath.rel [generate_name pref (rng k)])) = false →
        unique_dir_go base pref rng allow (fuel + 1) k fs
          = (fs, some (Except.error ())))) ∧
    (∀ base pref rng allow fuel k fs fs' p,
      unique_dir_go base pref rng allow fuel k fs = (fs', some (Except.ok p)) →
      p ∉ fs.dirs ∧ p ∈ fs'.dirs) ∧
    (∀ base pref rng1 rng2 allow1 allow2 fuel1 fuel2 k1 k2 fs fs1 fs2 p1 p2,
      unique_dir_go base pref rng1 allow1 fuel1 k1 fs = (fs1, some (Except.ok p1)) →
      unique_dir_go base pref rng2 allow2 fuel2 k2 fs1 = (fs2, some (Except.ok p2)) →
      p1 ≠ p2) := by
  refine ⟨fun num => ⟨rfl, hexChars_length num 8, hexChars_mem num 8⟩,
    fun base pref rng allow fuel k fs => ⟨?_, ?_, ?_⟩, ?_, ?_⟩
  · intro hin
    conv_lhs => unfold unique_dir_go
    unfold createDir
    simp only [hin, if_pos]
  · intro hin hall
    conv_lhs => unfold unique_dir_go
    unfold createDir
    simp only [hin, if_neg, if_false, hall, if_pos, if_true]
  · intro hin hall
    conv_lhs => unfold unique_dir_go
    unfold createDir
    simp only [hin, if_neg, if_false, hall, Bool.false_eq_true, if_false]
  · intro base pref rng allow fuel k fs fs' p h
    obtain ⟨hnot, hcons⟩ := unique_dir_go_created base pref rng allow fuel k fs fs' p h
    exact ⟨hnot, by rw [hcons]; exact List.mem_cons_self _ _⟩
  · intro base pref rng1 rng2 allow1 allow2 fuel1 fuel2 k1 k2 fs fs1 fs2 p1 p2 h1 h2
    obtain ⟨_, hcons1⟩ := unique_dir_go_created base pref rng1 allow1 fuel1 k1 fs fs1 p1 h1
    obtain ⟨hnot2, _⟩ := unique_dir_go_created base pref rng2 allow2 fuel2 k2 fs1 fs2 p2 h2
    intro he
    apply hnot2
    rw [← he, hcons1]
    exact List.mem_cons_self _ _

/-- All-one PRNG used by the second concrete `unique_dir` invocation. -/
def rngOne : Nat → Nat → Nat := fun _ _ => 1

/-- The concrete first worktree path. -/
def w0path : RsPath := ⟨false, ["tmp", "xtest-data-tree0000000000000000"]⟩

/-- Witness for C9 amended at concrete runs: suffix shape for the all-zero
PRNG, retry on an existing name, freshness of the created directory, and
distinctness of two successive invocations. -/
theorem unique_dir_amended_witness :
    generate_name "xtest-data-tree" (rngZero 0)
      = "xtest-data-tree" ++ String.mk (hexChars (rngZero 0) 8) ∧
    (hexChars (rngZero 0) 8).length = 16 ∧
    unique_dir_go d0 "xtest-data-tree" rngZero allowAll 1 0 ⟨[w0path]⟩
      = unique_dir_go d0 "xtest-data-tree" rngZero allowAll 0 1 ⟨[w0path]⟩ ∧
    (w0path ∉ (⟨[]⟩ : FsSt).dirs ∧ w0path ∈ (⟨[w0path]⟩ : FsSt).dirs) ∧
    w0path ≠ ⟨false, ["tmp", "xtest-data-tree1010101010101010"]⟩ := by
  refine ⟨(unique_dir_amended.1 (rngZero 0)).1, (unique_dir_amended.1 (rngZero 0)).2.1,
    ?_, ?_, ?_⟩
  · exact (unique_dir_amended.2.1 d0 "xtest-data-tree" rngZero allowAll 0 0 ⟨[w0path]⟩).1
      (by decide)
  · exact unique_dir_amended.2.2.1 d0 "xtest-data-tree" rngZero allowAll 1 0 ⟨[]⟩
      ⟨[w0path]⟩ w0path (by rfl)
  · exact unique_dir_amended.2.2.2 d0 "xtest-data-tree" rngZero rngOne allowAll allowAll
      1 1 0 0 ⟨[]⟩ ⟨[w0path]⟩ ⟨[⟨false, ["tmp", "xtest-data-tree1010101010101010"]⟩, w0path]⟩
      w0path ⟨false, ["tmp", "xtest-data-tree1010101010101010"]⟩ (by rfl) (by rfl)

/-- The lines piped into `sparse-checkout set --stdin` are always exactly the
display renderings of the simple pathspecs. -/
theorem checkout_sparse_lines (wAdd sOk fOk slOk : Bool) (paths : List PathSpec)
    (lines : List String)
    (h : (ShallowBareRepository.checkout wAdd sOk fOk slOk paths).sparseStdin
      = some lines) :
    lines = (pathSpecFilter paths).1.map PathSpec.displayPath := by
  unfold ShallowBareRepository.checkout at h
  cases wAdd <;> cases sOk <;> cases fOk <;> simp at h <;> exact h.symm

/-- The pathspecs streamed into the fallback-slow branch are either the full
union (sparse failure) or the complex set only (sparse success). -/
theorem checkout_slow_lines (wAdd sOk fOk slOk : Bool) (paths : List PathSpec)
    (l : List String)
    (h : (ShallowBareRepository.checkout wAdd sOk fOk slOk paths).slowStdin = some l) :
    l = ((pathSpecFilter paths).1 ++ (pathSpecFilter paths).2).map PathSpec.render ∨
    l = (pathSpecFilter paths).2.map PathSpec.render := by
  unfold ShallowBareRepository.checkout at h
  cases wAdd <;> cases sOk <;> cases fOk <;> simp at h
  · exact Or.inl (by rw [List.map_append]; exact h.symm)
  · exact Or.inl (by rw [List.map_append]; exact h.symm)
  · exact Or.inr h.symm

/-- A simple pathspec has no newline in its display rendering. -/
theorem isSimple_no_newline (q : PathSpec) (h : PathSpec.isSimple q = true) :
    strContains q.path.display '\n' = false := by
  unfold PathSpec.isSimple PathSpec.as_encompassing_path at h
  simp only [Bool.and_eq_true, Bool.not_eq_true'] at h
  exact h.1

/-- C10: checkout partitions the pathspecs into simple and complex by the
newline/NUL test; a pathspec with an embedded newline lands in the complex set,
never appears among the sparse-checkout lines, and is checked out only through
the fallback-slow NUL-delimited branch; and when the sparse-checkout step
fails, the fallback runs on the full union of simple and complex pathspecs. -/
theorem checkout_newline_routing (wAdd sOk fOk slOk : Bool) (paths : List PathSpec) :
    (∀ p, p ∈ paths → strContains p.displayPath '\n' = true →
      p ∈ (pathSpecFilter paths).2 ∧
      (∀ lines, (ShallowBareRepository.checkout wAdd sOk fOk slOk paths).sparseStdin
          = some lines → p.displayPath ∉ lines) ∧
      (∀ l, (ShallowBareRepository.checkout wAdd sOk fOk slOk paths).slowStdin
          = some l → p.render ∈ l)) ∧
    (wAdd = true → sOk = false →
      (ShallowBareRepository.checkout wAdd sOk fOk slOk paths).slowStdin
        = some (((pathSpecFilter paths).1 ++ (pathSpecFilter paths).2).map
            PathSpec.render)) := by
  constructor
  · intro p hp hnl
    have hnl' : strContains p.path.display '\n' = true := hnl
    have hns : PathSpec.isSimple p = false := by
      unfold PathSpec.isSimple PathSpec.as_encompassing_path
      simp [hnl']
    have hcomplex : p ∈ (pathSpecFilter paths).2 := by
      unfold pathSpecFilter
      rw [List.partition_eq_filter_filter]
      exact List.mem_filter.mpr ⟨hp, by simp [hns]⟩
    refine ⟨hcomplex, ?_, ?_⟩
    · intro lines hl
      rw [checkout_sparse_lines wAdd sOk fOk slOk paths lines hl]
      intro hmem
      obtain ⟨q, hq, he⟩ := List.mem_map.mp hmem
      have hqs : PathSpec.isSimple q = true := by
        unfold pathSpecFilter at hq
        rw [List.partition_eq_filter_filter] at hq
        exact (List.mem_filter.mp hq).2
      have := isSimple_no_newline q hqs
      rw [show q.path.display = p.path.display from he] at this
      rw [hnl'] at this
      exact Bool.true_eq_false.mp this
    · intro l hl
      rcases checkout_slow_lines wAdd sOk fOk slOk paths l hl with h1 | h2
      · rw [h1]
        exact List.mem_map.mpr ⟨p, List.mem_append.mpr (Or.inr hcomplex), rfl⟩
      · rw [h2]
        exact List.mem_map.mpr ⟨p, hcomplex, rfl⟩
  · intro hw hs
    subst hw
    subst hs
    unfold ShallowBareRepository.checkout
    cases fOk <;> simp

/-- Witness for C10 at a concrete mixed pathspec list: the newline pathspec is
in the complex set and the sparse-failure fallback receives the full union. -/
theorem checkout_newline_routing_witness :
    psNewline ∈ (pathSpecFilter [psPlain, psNewline]).2 ∧
    (ShallowBareRepository.checkout true false true true [psPlain, psNewline]).slowStdin
      = some (((pathSpecFilter [psPlain, psNewline]).1
          ++ (pathSpecFilter [psPlain, psNewline]).2).map PathSpec.render) := by
  have h := checkout_newline_routing true false true true [psPlain, psNewline]
  exact ⟨(h.1 psNewline (by decide) (by decide)).1, h.2 rfl rfl⟩

end XtestData
